import Mathlib

/-!
# Verification of the rectangle-relationship engine

A shallow embedding of the layout-assertion library: the geometric
primitives (`area`, `right`, `bottom`, `clampVisible`, `overlapLen`,
`overlapRatio1D`, `intersect`) and the relationship engine
(`isInViewport`, `visibleAreaRatioQ`, `relativePosition`, `areAligned`,
`edgeDistance`, `inOrder`, `intersectionAreaRatioQ`).

Coordinates are modelled as rationals.  The asynchronous measurement
collaborator is modelled by passing each operation the measurement
results it would fan-in: an `Option BoundingBox` per element, an
`Option ViewportSize` for the page, and a flag for a failing scroll
side effect.  Usage-error throws are modelled with `Except String`.
-/

namespace PIL

/-- An axis-aligned box `{x, y, width, height}` in viewport coordinates. -/
structure BoundingBox where
  x : ℚ
  y : ℚ
  width : ℚ
  height : ℚ
deriving DecidableEq, Repr

/-- Viewport dimensions `{width, height}`. -/
structure ViewportSize where
  width : ℚ
  height : ℚ
deriving DecidableEq, Repr

/-- Physical directions (post-logical mapping). -/
inductive Direction where
  | left
  | right
  | above
  | below
deriving DecidableEq, Repr

/-- Reading-order sequences. -/
inductive Order where
  | leftToRight
  | rightToLeft
  | topToBottom
  | bottomToTop
deriving DecidableEq, Repr

/-- Logical direction for bidi mapping. -/
inductive LogicalDir where
  | start
  | «end»
deriving DecidableEq, Repr

/-- Writing direction used for logical mapping. -/
inductive WritingDir where
  | ltr
  | rtl
deriving DecidableEq, Repr

/-- `assertRatio01`: throws unless `0 ≤ v ≤ 1`. -/
def assertRatio01 (v : ℚ) (label : String) : Except String Unit :=
  if ¬(0 ≤ v ∧ v ≤ 1) then Except.error (label ++ " must be between 0 and 1")
  else Except.ok ()

/-- `assertNonNegative`: throws when `v < 0`. -/
def assertNonNegative (v : ℚ) (label : String) : Except String Unit :=
  if v < 0 then Except.error (label ++ " must be >= 0")
  else Except.ok ()

/-- `area(b) = max(0, width) * max(0, height)`. -/
def area (b : BoundingBox) : ℚ :=
  max 0 b.width * max 0 b.height

/-- `right(b) = x + width`. -/
def right (b : BoundingBox) : ℚ :=
  b.x + b.width

/-- `bottom(b) = y + height`. -/
def bottom (b : BoundingBox) : ℚ :=
  b.y + b.height

/-- Clamp a box to the visible region of a `viewW × viewH` viewport. -/
def clampVisible (viewW viewH : ℚ) (b : BoundingBox) : BoundingBox :=
  let x1 := max 0 b.x
  let y1 := max 0 b.y
  let x2 := min (right b) (max 0 viewW)
  let y2 := min (bottom b) (max 0 viewH)
  ⟨x1, y1, max 0 (x2 - x1), max 0 (y2 - y1)⟩

/-- 1D interval overlap length. -/
def overlapLen (a1 a2 b1 b2 : ℚ) : ℚ :=
  max 0 (min a2 b2 - max a1 b1)

/-- 1D overlap ratio: overlap length over the shorter interval length. -/
def overlapRatio1D (a1 a2 b1 b2 : ℚ) : ℚ :=
  let ov := overlapLen a1 a2 b1 b2
  let len := min (a2 - a1) (b2 - b1)
  if len > 0 then ov / len else 0

/-- Axis-aligned rectangle intersection. -/
def intersect (a b : BoundingBox) : BoundingBox :=
  let x1 := max a.x b.x
  let y1 := max a.y b.y
  let x2 := min (right a) (right b)
  let y2 := min (bottom a) (bottom b)
  ⟨x1, y1, max 0 (x2 - x1), max 0 (y2 - y1)⟩

/-- Comparison helper `ge(a, b, tol) ↔ a + tol ≥ b`. -/
def ge (a b tol : ℚ) : Bool :=
  decide (a + tol ≥ b)

/-- Comparison helper `le(a, b, tol) ↔ a ≤ b + tol`. -/
def le (a b tol : ℚ) : Bool :=
  decide (a ≤ b + tol)

/-- Comparison helper `within(v, t, tol) ↔ |v - t| ≤ tol`. -/
def within (v t tol : ℚ) : Bool :=
  decide (|v - t| ≤ tol)

/-- Options for viewport checks; `none` fields take the documented defaults. -/
structure IsInViewportOptions where
  fullyVisible : Option Bool
  threshold : Option ℚ
  padding : Option ℚ
  scrollIntoView : Option Bool
deriving DecidableEq, Repr

/-- Options for relative positioning; `none` fields take the documented
defaults.  The `overlapRatio` option of the source is the field
`overlapRatioQ`. -/
structure RelativeOptions where
  overlapRatioQ : Option ℚ
  gap : Option ℚ
  tolerance : Option ℚ
  logical : Option LogicalDir
  writingDirection : Option WritingDir
deriving DecidableEq, Repr

/-- Axis selector for alignment checks. -/
inductive Axis where
  | x
  | y
deriving DecidableEq, Repr

/-- Edge or center comparison for alignment checks. -/
inductive AlignMode where
  | edges
  | centers
deriving DecidableEq, Repr

/-- Options for alignment checks. -/
structure AlignOptions where
  axis : Axis
  mode : AlignMode
  tolerance : Option ℚ
deriving DecidableEq, Repr

/-- Map a logical direction to a physical one; vertical directions and calls
without `logical` pass through unchanged. -/
def mapLogical (direction : Direction) (opts : RelativeOptions) : Direction :=
  match opts.logical with
  | none => direction
  | some lg =>
    let writing := opts.writingDirection.getD WritingDir.ltr
    match direction with
    | Direction.left | Direction.right =>
      match lg with
      | LogicalDir.start =>
        if writing = WritingDir.rtl then Direction.right else Direction.left
      | LogicalDir.«end» =>
        if writing = WritingDir.rtl then Direction.left else Direction.right
    | Direction.above => Direction.above
    | Direction.below => Direction.below

/-- `isInViewport`, with the measurement results passed in: the element's
box, the page's viewport, and whether a requested scroll attempt fails. -/
def isInViewport (box? : Option BoundingBox) (viewport? : Option ViewportSize)
    (scrollFails : Bool) (options : IsInViewportOptions) : Except String Bool :=
  let fullyVisible := options.fullyVisible.getD false
  let threshold := options.threshold.getD 0
  let padding := options.padding.getD 0
  let scrollIntoView := options.scrollIntoView.getD false
  if scrollIntoView && scrollFails then Except.ok false
  else
    match box? with
    | none => Except.ok false
    | some box =>
      if area box ≤ 0 then Except.ok false
      else
        match viewport? with
        | none => Except.ok false
        | some viewport =>
          match assertNonNegative padding "padding" with
          | Except.error e => Except.error e
          | Except.ok _ =>
            match (if fullyVisible then Except.ok ()
                   else assertRatio01 threshold "threshold") with
            | Except.error e => Except.error e
            | Except.ok _ =>
              let vpW := viewport.width - padding * 2
              let vpH := viewport.height - padding * 2
              if vpW ≤ 0 ∨ vpH ≤ 0 then Except.ok false
              else
                let shifted : BoundingBox :=
                  ⟨box.x - padding, box.y - padding, box.width, box.height⟩
                let visible := clampVisible vpW vpH shifted
                if fullyVisible then
                  Except.ok (decide (box.x ≥ padding ∧ box.y ≥ padding ∧
                    right box ≤ viewport.width - padding ∧
                    bottom box ≤ viewport.height - padding))
                else
                  Except.ok (decide (area visible / area box ≥ threshold))

/-- `visibleAreaRatio`: visible area fraction of the element in the viewport. -/
def visibleAreaRatioQ (box? : Option BoundingBox)
    (viewport? : Option ViewportSize) : ℚ :=
  match box?, viewport? with
  | some box, some viewport =>
    if area box = 0 then 0
    else
      let vis := clampVisible viewport.width viewport.height box
      min 1 (max 0 (area vis / area box))
  | _, _ => 0

/-- Run a validation check on an option value only when it was provided,
as the source does with its `if (options.f !== undefined) assert…` lines. -/
def checkOpt (check : ℚ → String → Except String Unit) (v? : Option ℚ)
    (label : String) : Except String Unit :=
  match v? with
  | some v => check v label
  | none => Except.ok ()

/-- `relativePosition` on the two fan-in measurement results. -/
def relativePosition (A? B? : Option BoundingBox) (direction : Direction)
    (options : RelativeOptions) : Except String Bool :=
  let tol := options.tolerance.getD 0
  match checkOpt assertNonNegative options.gap "gap" with
  | Except.error e => Except.error e
  | Except.ok _ =>
    match checkOpt assertRatio01 options.overlapRatioQ "overlapRatio" with
    | Except.error e => Except.error e
    | Except.ok _ =>
      match A?, B? with
      | some A, some B =>
        let gap := options.gap.getD 0
        let needOv := options.overlapRatioQ.getD 0
        match mapLogical direction options with
        | Direction.left =>
          Except.ok (le (right A) (B.x - gap) tol &&
            decide (overlapRatio1D A.y (bottom A) B.y (bottom B) + tol ≥ needOv))
        | Direction.right =>
          Except.ok (ge A.x (right B + gap) (-tol) &&
            decide (overlapRatio1D A.y (bottom A) B.y (bottom B) + tol ≥ needOv))
        | Direction.above =>
          Except.ok (le (bottom A) (B.y - gap) tol &&
            decide (overlapRatio1D A.x (right A) B.x (right B) + tol ≥ needOv))
        | Direction.below =>
          Except.ok (ge A.y (bottom B + gap) (-tol) &&
            decide (overlapRatio1D A.x (right A) B.x (right B) + tol ≥ needOv))
      | _, _ => Except.ok false

/-- `areAligned` on the two fan-in measurement results. -/
def areAligned (A? B? : Option BoundingBox) (options : AlignOptions) : Bool :=
  let tolerance := options.tolerance.getD 1
  match A?, B? with
  | some A, some B =>
    match options.axis with
    | Axis.x =>
      match options.mode with
      | AlignMode.edges =>
        within A.y B.y tolerance && within (bottom A) (bottom B) tolerance
      | AlignMode.centers =>
        within (A.y + A.height / 2) (B.y + B.height / 2) tolerance
    | Axis.y =>
      match options.mode with
      | AlignMode.edges =>
        within A.x B.x tolerance && within (right A) (right B) tolerance
      | AlignMode.centers =>
        within (A.x + A.width / 2) (B.x + B.width / 2) tolerance
  | _, _ => false

/-- `edgeDistance` on the two fan-in measurement results. -/
def edgeDistance (A? B? : Option BoundingBox) (direction : Direction) :
    Option ℚ :=
  match A?, B? with
  | some A, some B =>
    match direction with
    | Direction.left => some (B.x - right A)
    | Direction.right => some (A.x - right B)
    | Direction.above => some (B.y - bottom A)
    | Direction.below => some (A.y - bottom B)
  | _, _ => none

/-- Collect a list of measurement results; `none` if any box is absent. -/
def allSome : List (Option BoundingBox) → Option (List BoundingBox)
  | [] => some []
  | none :: _ => none
  | some b :: rest => (allSome rest).map (b :: ·)

/-- The per-adjacent-pair comparison of `inOrder` for one `Order`. -/
def pairOk (order : Order) (tolerance : ℚ) (p n : BoundingBox) : Bool :=
  match order with
  | Order.leftToRight => le (right p) n.x tolerance
  | Order.rightToLeft => ge p.x (right n) (-tolerance)
  | Order.topToBottom => le (bottom p) n.y tolerance
  | Order.bottomToTop => ge p.y (bottom n) (-tolerance)

/-- Walk adjacent pairs; vacuously true for 0 or 1 boxes. -/
def chainPairs (order : Order) (tolerance : ℚ) : List BoundingBox → Bool
  | [] => true
  | [_] => true
  | p :: n :: rest =>
    pairOk order tolerance p n && chainPairs order tolerance (n :: rest)

/-- `inOrder` on the fan-in measurement results of the whole sequence. -/
def inOrder (locators : List (Option BoundingBox)) (order : Order)
    (tolerance : ℚ) : Bool :=
  match allSome locators with
  | none => false
  | some b => chainPairs order tolerance b

/-- `intersectionAreaRatio`: overlap area over `area(A)`, clamped to `[0,1]`. -/
def intersectionAreaRatioQ (A? B? : Option BoundingBox) : ℚ :=
  match A?, B? with
  | some A, some B =>
    if area A = 0 then 0
    else min 1 (max 0 (area (intersect A B) / area A))
  | _, _ => 0

/-- Validity of the `isInViewport` options, as the engine checks them. -/
def IsInViewportOptions.valid (o : IsInViewportOptions) : Prop :=
  0 ≤ o.padding.getD 0 ∧ 0 ≤ o.threshold.getD 0 ∧ o.threshold.getD 0 ≤ 1

/-- Validity of the `relativePosition` options, as the engine checks them. -/
def RelativeOptions.valid (o : RelativeOptions) : Prop :=
  0 ≤ o.gap.getD 0 ∧ 0 ≤ o.overlapRatioQ.getD 0 ∧ o.overlapRatioQ.getD 0 ≤ 1

/-! ## Helper lemmas -/

lemma max_zero_max (x : ℚ) : max 0 (max 0 x) = max 0 x :=
  max_eq_right (le_max_left 0 x)

lemma clamp1D (x len W : ℚ) :
    max 0 (min (max 0 x + max 0 (min (x + len) W - max 0 x)) W - max 0 x)
      = max 0 (min (x + len) W - max 0 x) := by
  rcases le_total 0 (min (x + len) W - max 0 x) with hc | hc
  · rw [max_eq_right hc]
    have hsum : max 0 x + (min (x + len) W - max 0 x) = min (x + len) W := by
      ring
    rw [hsum, min_eq_left (min_le_right (x + len) W)]
    exact max_eq_right hc
  · rw [max_eq_left hc, add_zero]
    exact max_eq_left (sub_nonpos.mpr (min_le_left (max 0 x) W))

lemma overlapRatio1D_nonneg (a1 a2 b1 b2 : ℚ) :
    0 ≤ overlapRatio1D a1 a2 b1 b2 := by
  simp only [overlapRatio1D, overlapLen]
  split
  · exact div_nonneg (le_max_left 0 _) (le_of_lt (by assumption))
  · exact le_refl 0

lemma checkOpt_nonneg_ok (g? : Option ℚ) (label : String)
    (h : 0 ≤ g?.getD 0) : checkOpt assertNonNegative g? label = Except.ok () := by
  cases g? with
  | none => rfl
  | some g =>
    have hg : 0 ≤ g := by simpa using h
    simp [checkOpt, assertNonNegative, not_lt.mpr hg]

lemma checkOpt_ratio_ok (r? : Option ℚ) (label : String)
    (h0 : 0 ≤ r?.getD 0) (h1 : r?.getD 0 ≤ 1) :
    checkOpt assertRatio01 r? label = Except.ok () := by
  cases r? with
  | none => rfl
  | some r =>
    have hr0 : 0 ≤ r := by simpa using h0
    have hr1 : r ≤ 1 := by simpa using h1
    simp [checkOpt, assertRatio01, hr0, hr1]

lemma allSome_eq_none {l : List (Option BoundingBox)} (h : none ∈ l) :
    allSome l = none := by
  induction l with
  | nil => cases h
  | cons hd tl ih =>
    cases hd with
    | none => rfl
    | some b =>
      rcases List.mem_cons.mp h with h1 | h2
      · exact Option.noConfusion h1
      · simp [allSome, ih h2]

/-! ## Claims -/

/-- C8: `clampVisible` is idempotent: for all viewport dimensions and every
rectangle (negative coordinates and dimensions included), clamping twice
equals clamping once. -/
theorem C8_clampVisible_idempotent (w h : ℚ) (r : BoundingBox) :
    clampVisible w h (clampVisible w h r) = clampVisible w h r := by
  simp only [clampVisible, right, bottom]
  rw [BoundingBox.mk.injEq]
  refine ⟨max_zero_max r.x, max_zero_max r.y, ?_, ?_⟩
  · rw [max_zero_max]
    exact clamp1D r.x r.width (max 0 w)
  · rw [max_zero_max]
    exact clamp1D r.y r.height (max 0 h)

/-- C9: viewport clamping is exactly rectangle intersection with the floored
viewport rectangle `{x := 0, y := 0, width := max 0 w, height := max 0 h}`,
on every input. -/
theorem C9_clampVisible_eq_intersect (w h : ℚ) (r : BoundingBox) :
    clampVisible w h r = intersect r ⟨0, 0, max 0 w, max 0 h⟩ := by
  simp only [clampVisible, intersect, right, bottom]
  rw [BoundingBox.mk.injEq]
  refine ⟨max_comm 0 r.x, max_comm 0 r.y, ?_, ?_⟩
  · rw [max_comm 0 r.x, zero_add]
  · rw [max_comm 0 r.y, zero_add]

/-- C1: for measured subject `A` and reference `B` and valid options without
logical mapping, `relativePosition` with direction `left` is true iff
`right A ≤ B.x - gap + tolerance` and the vertical 1D overlap ratio plus the
tolerance is at least the required overlap ratio. -/
theorem C1_relativePosition_left_iff (A B : BoundingBox) (opts : RelativeOptions)
    (hlog : opts.logical = none)
    (hgap : 0 ≤ opts.gap.getD 0)
    (hr0 : 0 ≤ opts.overlapRatioQ.getD 0) (hr1 : opts.overlapRatioQ.getD 0 ≤ 1)
    (_htol : 0 ≤ opts.tolerance.getD 0) :
    relativePosition (some A) (some B) Direction.left opts = Except.ok true ↔
      (right A ≤ B.x - opts.gap.getD 0 + opts.tolerance.getD 0 ∧
        overlapRatio1D A.y (bottom A) B.y (bottom B) + opts.tolerance.getD 0 ≥
          opts.overlapRatioQ.getD 0) := by
  have hmap : mapLogical Direction.left opts = Direction.left := by
    simp [mapLogical, hlog]
  rw [relativePosition, checkOpt_nonneg_ok opts.gap "gap" hgap,
    checkOpt_ratio_ok opts.overlapRatioQ "overlapRatio" hr0 hr1]
  simp only [hmap, le, Except.ok.injEq, Bool.and_eq_true, decide_eq_true_eq,
    ge_iff_le]

/-- C1 witness: a concrete pair and valid options on which the equivalence
holds with both sides true. -/
theorem C1_witness :
    relativePosition (some ⟨0, 0, 2, 2⟩) (some ⟨5, 0, 2, 2⟩) Direction.left
      ⟨some 0, some 1, some 1, none, none⟩ = Except.ok true :=
  (C1_relativePosition_left_iff ⟨0, 0, 2, 2⟩ ⟨5, 0, 2, 2⟩
    ⟨some 0, some 1, some 1, none, none⟩ rfl (by norm_num) (by norm_num)
    (by norm_num) (by norm_num)).mpr
    (by norm_num [right, bottom, overlapRatio1D, overlapLen])

/-- C6: with `A` measured, non-degenerate and disjoint to the left of a
non-degenerate `B` (`right A ≤ B.x`), under default gap, tolerance and
overlap ratio, `relativePosition _ _ left {logical := start}` is true under
`ltr` writing direction and false under `rtl`. -/
theorem C6_logical_start_ltr_rtl (A B : BoundingBox)
    (hAw : 0 < A.width) (_hAh : 0 < A.height)
    (hBw : 0 < B.width) (_hBh : 0 < B.height)
    (hx : right A ≤ B.x) :
    relativePosition (some A) (some B) Direction.left
      ⟨none, none, none, some LogicalDir.start, some WritingDir.ltr⟩ =
        Except.ok true ∧
    relativePosition (some A) (some B) Direction.left
      ⟨none, none, none, some LogicalDir.start, some WritingDir.rtl⟩ =
        Except.ok false := by
  constructor
  · have hov := overlapRatio1D_nonneg A.y (bottom A) B.y (bottom B)
    simp [relativePosition, checkOpt, mapLogical, le, ge]
    constructor
    · linarith
    · linarith
  · simp [relativePosition, checkOpt, mapLogical, le, ge]
    intro hle
    exfalso
    simp only [right] at hx hle
    linarith

/-- C6 witness: concrete disjoint non-degenerate rectangles. -/
theorem C6_witness :
    relativePosition (some ⟨0, 0, 1, 1⟩) (some ⟨2, 0, 1, 1⟩) Direction.left
      ⟨none, none, none, some LogicalDir.start, some WritingDir.ltr⟩ =
        Except.ok true ∧
    relativePosition (some ⟨0, 0, 1, 1⟩) (some ⟨2, 0, 1, 1⟩) Direction.left
      ⟨none, none, none, some LogicalDir.start, some WritingDir.rtl⟩ =
        Except.ok false :=
  C6_logical_start_ltr_rtl ⟨0, 0, 1, 1⟩ ⟨2, 0, 1, 1⟩ (by norm_num) (by norm_num)
    (by norm_num) (by norm_num) (by norm_num [right])

/-- C10: when `logical` is present the horizontal direction argument is
ignored — `left` and `right` calls agree on every pair of measurement
results — while `above` and `below` pass through `mapLogical` unchanged. -/
theorem C10_logical_ignores_horizontal (A? B? : Option BoundingBox)
    (opts : RelativeOptions) (hlog : opts.logical.isSome = true) :
    relativePosition A? B? Direction.left opts =
      relativePosition A? B? Direction.right opts ∧
    mapLogical Direction.above opts = Direction.above ∧
    mapLogical Direction.below opts = Direction.below := by
  obtain ⟨lg, hl⟩ := Option.isSome_iff_exists.mp hlog
  have key : mapLogical Direction.left opts = mapLogical Direction.right opts := by
    simp only [mapLogical, hl]
  refine ⟨?_, ?_, ?_⟩
  · simp only [relativePosition, key]
  · simp only [mapLogical, hl]
  · simp only [mapLogical, hl]

/-- C10 witness: a concrete call with `logical := start` where `left` and
`right` requests coincide. -/
theorem C10_witness :
    relativePosition (some ⟨0, 0, 2, 2⟩) (some ⟨5, 0, 2, 2⟩) Direction.left
      ⟨none, none, none, some LogicalDir.start, none⟩ =
    relativePosition (some ⟨0, 0, 2, 2⟩) (some ⟨5, 0, 2, 2⟩) Direction.right
      ⟨none, none, none, some LogicalDir.start, none⟩ :=
  (C10_logical_ignores_horizontal (some ⟨0, 0, 2, 2⟩) (some ⟨5, 0, 2, 2⟩)
    ⟨none, none, none, some LogicalDir.start, none⟩ rfl).1

/-- C2: evaluation at the failing input.  With the subject exactly abutting
`right(reference)`, `relativePosition _ _ right` is true at tolerance `0` but
false at tolerance `1`: the code demands `subject.x ≥ right(reference) + gap
+ tolerance`, so tolerance tightens instead of relaxing the check. -/
theorem C2_tolerance_tightens_right :
    relativePosition (some ⟨10, 0, 5, 10⟩) (some ⟨0, 0, 10, 10⟩) Direction.right
      ⟨none, none, some 0, none, none⟩ = Except.ok true ∧
    relativePosition (some ⟨10, 0, 5, 10⟩) (some ⟨0, 0, 10, 10⟩) Direction.right
      ⟨none, none, some 1, none, none⟩ = Except.ok false := by
  constructor <;>
    norm_num [relativePosition, checkOpt, mapLogical, ge, right, bottom,
      overlapRatio1D, overlapLen]

/-- C4: evaluation at the failing input.  For two boxes with
`prev.x = right(next) = 20`, `inOrder _ rightToLeft` is true at tolerance `0`
but false at tolerance `5`: the code demands `prev.x ≥ right(next) +
tolerance` instead of the specified `prev.x ≥ right(next) - tolerance`. -/
theorem C4_inOrder_rightToLeft_tightens :
    inOrder [some ⟨20, 0, 10, 10⟩, some ⟨0, 0, 20, 10⟩] Order.rightToLeft 0
      = true ∧
    inOrder [some ⟨20, 0, 10, 10⟩, some ⟨0, 0, 20, 10⟩] Order.rightToLeft 5
      = false := by
  constructor <;>
    norm_num [inOrder, allSome, chainPairs, pairOk, ge, right]

/-- C3 counterexample: with negative padding but an absent rectangle,
`isInViewport` resolves to false instead of raising the usage error, so the
validation is not performed before measurement. -/
theorem C3_counterexample :
    isInViewport none none false ⟨none, none, some (-1), none⟩ =
      Except.ok false := by
  simp [isInViewport]

/-- C3 amended: `isInViewport` validates `padding` and `threshold` only
after the measurements: an absent rectangle or absent viewport yields
`false` without raising even for invalid options; when the rectangle is
present with positive area and the viewport is present (and a requested
scroll did not fail), negative padding raises, and with non-negative
padding and `fullyVisible` off an out-of-range threshold raises. -/
theorem C3_amended_validation_after_measurement :
    (∀ (vp? : Option ViewportSize) (sf : Bool) (opts : IsInViewportOptions),
      isInViewport none vp? sf opts = Except.ok false) ∧
    (∀ (b : BoundingBox) (sf : Bool) (opts : IsInViewportOptions),
      isInViewport (some b) none sf opts = Except.ok false) ∧
    (∀ (b : BoundingBox) (vp : ViewportSize) (sf : Bool)
      (opts : IsInViewportOptions),
      (opts.scrollIntoView.getD false && sf) = false → 0 < area b →
      opts.padding.getD 0 < 0 →
      isInViewport (some b) (some vp) sf opts =
        Except.error "padding must be >= 0") ∧
    (∀ (b : BoundingBox) (vp : ViewportSize) (sf : Bool)
      (opts : IsInViewportOptions),
      (opts.scrollIntoView.getD false && sf) = false → 0 < area b →
      0 ≤ opts.padding.getD 0 → opts.fullyVisible.getD false = false →
      ¬(0 ≤ opts.threshold.getD 0 ∧ opts.threshold.getD 0 ≤ 1) →
      isInViewport (some b) (some vp) sf opts =
        Except.error "threshold must be between 0 and 1") := by
  refine ⟨?_, ?_, ?_, ?_⟩
  · intro vp? sf opts
    cases hsc : (opts.scrollIntoView.getD false && sf) <;>
      simp [isInViewport, hsc]
  · intro b sf opts
    by_cases ha : area b ≤ 0 <;>
      cases hsc : (opts.scrollIntoView.getD false && sf) <;>
        simp [isInViewport, hsc, ha]
  · intro b vp sf opts hsc hpos hpad
    simp [isInViewport, hsc, not_le.mpr hpos, assertNonNegative, hpad]
  · intro b vp sf opts hsc hpos hpad hfv hthr
    simp [isInViewport, hsc, not_le.mpr hpos, assertNonNegative,
      not_lt.mpr hpad, hfv, assertRatio01, hthr]

/-- C3 amended witness: absence resolves to false even with invalid
padding, and with both measurements present the same invalid padding
raises. -/
theorem C3_amended_witness :
    isInViewport none (some ⟨800, 600⟩) false ⟨none, none, some (-1), none⟩ =
      Except.ok false ∧
    isInViewport (some ⟨0, 0, 1, 1⟩) (some ⟨800, 600⟩) false
      ⟨none, none, some (-1), none⟩ = Except.error "padding must be >= 0" :=
  ⟨C3_amended_validation_after_measurement.1 (some ⟨800, 600⟩) false
      ⟨none, none, some (-1), none⟩,
    C3_amended_validation_after_measurement.2.2.1 ⟨0, 0, 1, 1⟩ ⟨800, 600⟩ false
      ⟨none, none, some (-1), none⟩ rfl (by norm_num [area]) (by norm_num)⟩

/-- C7 counterexample: on a 10002×10002 viewport the padded effective
viewport is 2×2, the clipped box with default threshold 0 still passes,
so `isInViewport _ {padding := 5000}` returns true on this finite
viewport. -/
theorem C7_counterexample :
    isInViewport (some ⟨1, 1, 1, 1⟩) (some ⟨10002, 10002⟩) false
      ⟨none, none, some 5000, none⟩ = Except.ok true := by
  norm_num [isInViewport, assertNonNegative, assertRatio01, area,
    clampVisible, right, bottom]

/-- C7 amended: `isInViewport _ {padding := 5000}` is false whenever either
viewport dimension is at most `10000 = 2 · 5000`, i.e. whenever a padded
effective dimension is `≤ 0`; on strictly larger viewports it can be true
(see the counterexample). -/
theorem C7_amended_padding_5000 (b : BoundingBox) (vp : ViewportSize)
    (sf : Bool) (hvp : vp.width ≤ 10000 ∨ vp.height ≤ 10000) :
    isInViewport (some b) (some vp) sf ⟨none, none, some 5000, none⟩ =
      Except.ok false := by
  by_cases ha : area b ≤ 0
  · simp [isInViewport, ha]
  · norm_num [isInViewport, ha, assertNonNegative, assertRatio01]
    intro h1 h2
    exfalso
    rcases hvp with h | h <;> linarith

/-- C7 amended witness: an 800×600 viewport with a measured box. -/
theorem C7_amended_witness :
    isInViewport (some ⟨0, 0, 120, 80⟩) (some ⟨800, 600⟩) false
      ⟨none, none, some 5000, none⟩ = Except.ok false :=
  C7_amended_padding_5000 ⟨0, 0, 120, 80⟩ ⟨800, 600⟩ false
    (Or.inl (by norm_num))

/-- C5: with valid options, absence of any requested rectangle or of the
viewport makes each public operation resolve to its negative value — false
for `isInViewport`, `relativePosition`, `areAligned` and `inOrder`, `0` for
`visibleAreaRatioQ` and `intersectionAreaRatioQ`, `none` for
`edgeDistance` — and never raise. -/
theorem C5_absence_resolves_negative :
    (∀ (vp? : Option ViewportSize) (sf : Bool) (opts : IsInViewportOptions),
      opts.valid → isInViewport none vp? sf opts = Except.ok false) ∧
    (∀ (b : BoundingBox) (sf : Bool) (opts : IsInViewportOptions),
      opts.valid → isInViewport (some b) none sf opts = Except.ok false) ∧
    (∀ vp?, visibleAreaRatioQ none vp? = 0) ∧
    (∀ b?, visibleAreaRatioQ b? none = 0) ∧
    (∀ (A? B? : Option BoundingBox) (d : Direction) (opts : RelativeOptions),
      opts.valid → (A? = none ∨ B? = none) →
      relativePosition A? B? d opts = Except.ok false) ∧
    (∀ (A? B? : Option BoundingBox) (opts : AlignOptions),
      A? = none ∨ B? = none → areAligned A? B? opts = false) ∧
    (∀ (A? B? : Option BoundingBox) (d : Direction),
      A? = none ∨ B? = none → edgeDistance A? B? d = none) ∧
    (∀ (bs : List (Option BoundingBox)) (o : Order) (tol : ℚ),
      none ∈ bs → inOrder bs o tol = false) ∧
    (∀ (A? B? : Option BoundingBox),
      A? = none ∨ B? = none → intersectionAreaRatioQ A? B? = 0) := by
  refine ⟨?_, ?_, ?_, ?_, ?_, ?_, ?_, ?_, ?_⟩
  · intro vp? sf opts _hv
    cases hsc : (opts.scrollIntoView.getD false && sf) <;>
      simp [isInViewport, hsc]
  · intro b sf opts _hv
    by_cases ha : area b ≤ 0 <;>
      cases hsc : (opts.scrollIntoView.getD false && sf) <;>
        simp [isInViewport, hsc, ha]
  · intro vp?
    cases vp? <;> rfl
  · intro b?
    cases b? <;> rfl
  · rintro A? B? d opts ⟨hg, hr0, hr1⟩ hmiss
    have h1 := checkOpt_nonneg_ok opts.gap "gap" hg
    have h2 := checkOpt_ratio_ok opts.overlapRatioQ "overlapRatio" hr0 hr1
    rcases hmiss with h | h <;> subst h
    · cases B? <;> simp [relativePosition, h1, h2]
    · cases A? <;> simp [relativePosition, h1, h2]
  · rintro A? B? opts (rfl | rfl)
    · cases B? <;> rfl
    · cases A? <;> rfl
  · rintro A? B? d (rfl | rfl)
    · cases B? <;> rfl
    · cases A? <;> rfl
  · intro bs o tol h
    simp [inOrder, allSome_eq_none h]
  · rintro A? B? (rfl | rfl)
    · cases B? <;> rfl
    · cases A? <;> rfl

/-- C5 witness: each operation at a concrete absent input, with valid
(default) options. -/
theorem C5_witness :
    isInViewport none none false ⟨none, none, none, none⟩ = Except.ok false ∧
    isInViewport (some ⟨0, 0, 1, 1⟩) none false ⟨none, none, none, none⟩ =
      Except.ok false ∧
    visibleAreaRatioQ none (some ⟨800, 600⟩) = 0 ∧
    visibleAreaRatioQ (some ⟨0, 0, 1, 1⟩) none = 0 ∧
    relativePosition none (some ⟨0, 0, 1, 1⟩) Direction.left
      ⟨none, none, none, none, none⟩ = Except.ok false ∧
    areAligned none (some ⟨0, 0, 1, 1⟩) ⟨Axis.x, AlignMode.edges, none⟩ =
      false ∧
    edgeDistance none (some ⟨0, 0, 1, 1⟩) Direction.left = none ∧
    inOrder [some ⟨0, 0, 1, 1⟩, none] Order.leftToRight 0 = false ∧
    intersectionAreaRatioQ none (some ⟨0, 0, 1, 1⟩) = 0 :=
  ⟨C5_absence_resolves_negative.1 none false ⟨none, none, none, none⟩
      (by simp [IsInViewportOptions.valid]),
    C5_absence_resolves_negative.2.1 ⟨0, 0, 1, 1⟩ false ⟨none, none, none, none⟩
      (by simp [IsInViewportOptions.valid]),
    C5_absence_resolves_negative.2.2.1 (some ⟨800, 600⟩),
    C5_absence_resolves_negative.2.2.2.1 (some ⟨0, 0, 1, 1⟩),
    C5_absence_resolves_negative.2.2.2.2.1 none (some ⟨0, 0, 1, 1⟩)
      Direction.left ⟨none, none, none, none, none⟩
      (by simp [RelativeOptions.valid]) (Or.inl rfl),
    C5_absence_resolves_negative.2.2.2.2.2.1 none (some ⟨0, 0, 1, 1⟩)
      ⟨Axis.x, AlignMode.edges, none⟩ (Or.inl rfl),
    C5_absence_resolves_negative.2.2.2.2.2.2.1 none (some ⟨0, 0, 1, 1⟩)
      Direction.left (Or.inl rfl),
    C5_absence_resolves_negative.2.2.2.2.2.2.2.1 [some ⟨0, 0, 1, 1⟩, none]
      Order.leftToRight 0 (by simp),
    C5_absence_resolves_negative.2.2.2.2.2.2.2.2 none (some ⟨0, 0, 1, 1⟩)
      (Or.inl rfl)⟩

end PIL
